import Mathlib

/- Verification development for the statistical anomaly detection engine of the
financial-risk-cost-analytics repository (analytics/src/anomaly_detection.py and
analytics/src/utils.py, orchestrated by analytics/run_analytics.py).

The tabular Python code is embedded shallowly: a DataFrame becomes a list of
rows, a row is an association list from column name to cell value, numeric
cells are exact rationals, and cells that the source computes as floating NaN
or infinity are represented by explicit constructors.  A standardized score
(x - mean) / std with std = sqrt var is represented exactly by the pair of its
numerator and the variance, since only its comparisons against rational
thresholds and against other scores are ever consumed; the comparison
abs (num / sqrt v) > t is encoded by the exact equivalent t < 0 or
num ^ 2 > t ^ 2 * v, valid for every v > 0.  Python in-place column assignment
to the frame of the caller is modelled by returning the post-call frame as an
explicit component of each detector result.  A raised KeyError for a missing
column is modelled by Except.error. -/

deriving instance DecidableEq for Except

/-- Exact representation of one standardized-score cell.  The constructor
val n v stands for the real number n / sqrt v with v > 0; zero is the literal
all-zero series the source returns when the standard deviation is zero; nan,
pinf and ninf model the IEEE values NaN, plus infinity and minus infinity that
degenerate divisions produce. -/
inductive ZVal where
  | zero
  | nan
  | pinf
  | ninf
  | val (num v : ℚ)
deriving DecidableEq

/-- Exact representation of one magnitude cell (absolute scores, rolling
standard deviations, severities).  The constructor sq q stands for the real
number sqrt q with q >= 0; nan and inf model the IEEE values. -/
inductive Mag where
  | nan
  | inf
  | sq (q : ℚ)
deriving DecidableEq

/-- One cell of a tabular dataset: exact numeric, text, standardized score,
magnitude, or a possibly-NaN numeric (rolling means). -/
inductive Val where
  | num (q : ℚ)
  | str (s : String)
  | z (v : ZVal)
  | mag (m : Mag)
  | onum (o : Option ℚ)
deriving DecidableEq

/-- A row maps column names to cells. -/
abbrev Row := List (String × Val)

/-- A DataFrame is its list of rows. -/
abbrev Df := List Row

/-- First cell stored under a column name, none when the column is absent. -/
def Row.get : Row → String → Option Val
  | [], _ => none
  | (k, v) :: r, c => if k = c then some v else Row.get r c

/-- Column assignment as pandas performs it: replace the column in place when
present, append it at the end otherwise. -/
def Row.set : Row → String → Val → Row
  | [], c, v => [(c, v)]
  | (k, w) :: r, c, v => if k = c then (c, v) :: r else (k, w) :: Row.set r c v

/-- Numeric cell of a column, none when absent or non-numeric. -/
def Row.getNum (r : Row) (c : String) : Option ℚ :=
  match r.get c with
  | some (Val.num q) => some q
  | _ => none

/-- Text cell of a column, none when absent or non-text. -/
def Row.getStr (r : Row) (c : String) : Option String :=
  match r.get c with
  | some (Val.str s) => some s
  | _ => none

/-- Whole numeric column of a frame; none when any row lacks it. -/
def getColNum : Df → String → Option (List ℚ)
  | [], _ => some []
  | r :: rs, c =>
    match r.getNum c, getColNum rs c with
    | some x, some xs => some (x :: xs)
    | _, _ => none

/-- Whole text column of a frame; none when any row lacks it. -/
def getColStr : Df → String → Option (List String)
  | [], _ => some []
  | r :: rs, c =>
    match r.getStr c, getColStr rs c with
    | some x, some xs => some (x :: xs)
    | _, _ => none

/-- Whole column of raw cells of a frame; none when any row lacks it. -/
def getColVals : Df → String → Option (List Val)
  | [], _ => some []
  | r :: rs, c =>
    match r.get c, getColVals rs c with
    | some v, some vs => some (v :: vs)
    | _, _ => none

/-- Assign a column across a frame, row by row.  The callers always supply one
value per row; leftover rows (never reached) stay unchanged. -/
def setCol : Df → String → List Val → Df
  | r :: rs, c, v :: vs => r.set c v :: setCol rs c vs
  | rs, _, [] => rs
  | [], _, _ => []

/-- Arithmetic mean of a column, as pandas Series.mean computes it (the junk
value 0 results for the empty column, which no caller consumes). -/
def mean (l : List ℚ) : ℚ := l.sum / l.length

/-- Sample variance with ddof = 1, the square of pandas Series.std; none models
the NaN pandas returns for fewer than two observations. -/
def sampleVar (l : List ℚ) : Option ℚ :=
  if l.length ≤ 1 then none
  else some ((l.map (fun x => (x - mean l) ^ 2)).sum / ((l.length : ℚ) - 1))

/-- Embedding of utils.calculate_z_score: compute mean and sample standard
deviation of the series, return the literal zero series when std == 0, and
(x - mean) / std per element otherwise.  A NaN standard deviation (fewer than
two observations) fails the zero test and yields NaN scores, as in pandas. -/
def calculate_z_score (series : List ℚ) : List ZVal :=
  match sampleVar series with
  | none => series.map (fun _ => ZVal.nan)
  | some v =>
    if v = 0 then series.map (fun _ => ZVal.zero)
    else series.map (fun x => ZVal.val (x - mean series) v)

/-- The test abs z > t on a score cell.  NaN compares false; for
z = num / sqrt v with v > 0 the test is encoded by the exact equivalent
t < 0 or num ^ 2 > t ^ 2 * v. -/
def ZVal.absGT : ZVal → ℚ → Bool
  | ZVal.zero, t => decide (t < 0)
  | ZVal.nan, _ => false
  | ZVal.pinf, _ => true
  | ZVal.ninf, _ => true
  | ZVal.val n v, t => decide (t < 0 ∨ t ^ 2 * v < n ^ 2)

/-- Absolute value of a score cell as a magnitude:
abs (num / sqrt v) = sqrt (num ^ 2 / v). -/
def ZVal.mag : ZVal → Mag
  | ZVal.zero => Mag.sq 0
  | ZVal.nan => Mag.nan
  | ZVal.pinf => Mag.inf
  | ZVal.ninf => Mag.inf
  | ZVal.val n v => Mag.sq (n ^ 2 / v)

/-- Binary maximum of magnitudes with the pandas skipna convention: NaN is
ignored unless both sides are NaN. -/
def magMax2 : Mag → Mag → Mag
  | Mag.nan, m => m
  | m, Mag.nan => m
  | Mag.inf, _ => Mag.inf
  | Mag.sq _, Mag.inf => Mag.inf
  | Mag.sq a, Mag.sq b => if a ≤ b then Mag.sq b else Mag.sq a

/-- The flag test on one already-computed score column of a row; a missing or
non-score cell behaves as NaN and compares false. -/
def rowAbsGT (r : Row) (c : String) (t : ℚ) : Bool :=
  match r.get c with
  | some (Val.z zv) => zv.absGT t
  | _ => false

/-- Row-wise maximum of absolute scores over the given columns, skipping NaN
as the pandas max over an axis does. -/
def rowSeverity (r : Row) (cols : List String) : Mag :=
  (cols.map (fun c =>
    match r.get c with
    | some (Val.z zv) => zv.mag
    | _ => Mag.nan)).foldl magMax2 Mag.nan

/-- Severity cell of a row, NaN when absent. -/
def rowSevKey (r : Row) : Mag :=
  match r.get "severity" with
  | some (Val.mag m) => m
  | _ => Mag.nan

/-- Descending comparison used to model sort_values on severity; pandas places
NaN last regardless of the sort direction. -/
def magBeforeDesc : Mag → Mag → Bool
  | Mag.nan, Mag.nan => true
  | Mag.nan, _ => false
  | _, Mag.nan => true
  | Mag.inf, _ => true
  | Mag.sq _, Mag.inf => false
  | Mag.sq a, Mag.sq b => decide (b ≤ a)

/-- Row comparison for the severity-descending sort. -/
def sevBefore (a b : Row) : Bool := magBeforeDesc (rowSevKey a) (rowSevKey b)

/-- Module constant Z_SCORE_THRESHOLD = 3.0 of anomaly_detection.py. -/
def Z_SCORE_THRESHOLD : ℚ := 3

/-- Embedding of the anomaly_type lambda of detect_cost_anomalies: the label of
the first watched field whose absolute score exceeds the threshold, the last
label as fallback. -/
def costLabel (t : ℚ) (r : Row) : String :=
  if rowAbsGT r "variance_z_score" t then "High Variance" else "High Amount"

/-- The two derived columns detect_cost_anomalies adds to each flagged row. -/
def decorateCost (t : ℚ) (r : Row) : Row :=
  (r.set "anomaly_type" (Val.str (costLabel t r))).set "severity"
    (Val.mag (rowSeverity r ["variance_z_score", "actual_z_score"]))

/-- Embedding of detect_cost_anomalies.  The source assigns the two z-score
columns into the frame of the caller in place; the model returns that mutated
frame as the first component and the severity-sorted anomaly table as the
second.  A missing watched column raises in Python and is an error here. -/
def detect_cost_anomalies (costs_df : Df) (threshold : ℚ) : Except String (Df × Df) :=
  match getColNum costs_df "variance_pct" with
  | none => Except.error "missing column: variance_pct"
  | some vpct =>
    let df1 := setCol costs_df "variance_z_score" ((calculate_z_score vpct).map Val.z)
    match getColNum df1 "actual_amount" with
    | none => Except.error "missing column: actual_amount"
    | some aamt =>
      let df2 := setCol df1 "actual_z_score" ((calculate_z_score aamt).map Val.z)
      let anomalies := df2.filter (fun r =>
        rowAbsGT r "variance_z_score" threshold || rowAbsGT r "actual_z_score" threshold)
      Except.ok (df2,
        List.insertionSort (fun a b => sevBefore a b = true)
          (anomalies.map (decorateCost threshold)))

/-- Embedding of the anomaly_type lambda of detect_loan_anomalies: pd before
ecl before ead, first match wins. -/
def loanLabel (t : ℚ) (r : Row) : String :=
  if rowAbsGT r "pd_z_score" t then "High PD"
  else if rowAbsGT r "ecl_z_score" t then "High ECL"
  else "High EAD"

/-- The two derived columns detect_loan_anomalies adds to each flagged row. -/
def decorateLoan (t : ℚ) (r : Row) : Row :=
  (r.set "anomaly_type" (Val.str (loanLabel t r))).set "severity"
    (Val.mag (rowSeverity r ["pd_z_score", "ecl_z_score", "ead_z_score"]))

/-- Embedding of detect_loan_anomalies; same shape as the cost detector, over
the three watched loan fields pd, ecl, ead. -/
def detect_loan_anomalies (loans_df : Df) (threshold : ℚ) : Except String (Df × Df) :=
  match getColNum loans_df "pd" with
  | none => Except.error "missing column: pd"
  | some pdv =>
    let df1 := setCol loans_df "pd_z_score" ((calculate_z_score pdv).map Val.z)
    match getColNum df1 "ecl" with
    | none => Except.error "missing column: ecl"
    | some eclv =>
      let df2 := setCol df1 "ecl_z_score" ((calculate_z_score eclv).map Val.z)
      match getColNum df2 "ead" with
      | none => Except.error "missing column: ead"
      | some eadv =>
        let df3 := setCol df2 "ead_z_score" ((calculate_z_score eadv).map Val.z)
        let anomalies := df3.filter (fun r =>
          rowAbsGT r "pd_z_score" threshold || rowAbsGT r "ecl_z_score" threshold ||
            rowAbsGT r "ead_z_score" threshold)
        Except.ok (df3,
          List.insertionSort (fun a b => sevBefore a b = true)
            (anomalies.map (decorateLoan threshold)))

/-- The adaptive window size of detect_time_series_anomalies:
window = min(3, len(df) - 1), with Python integer subtraction. -/
def tsWindow (n : Nat) : Int := min 3 ((n : Int) - 1)

/-- Trailing window of w points ending at index i (inclusive). -/
def winAt (vals : List ℚ) (w i : Nat) : List ℚ := (vals.drop (i + 1 - w)).take w

/-- Rolling mean at index i: NaN until w observations are available. -/
def rollMeanAt (vals : List ℚ) (w i : Nat) : Option ℚ :=
  if w ≤ i + 1 then some (mean (winAt vals w i)) else none

/-- Rolling sample standard deviation at index i, carried as its square. -/
def rollStdAt (vals : List ℚ) (w i : Nat) : Mag :=
  if w ≤ i + 1 then
    match sampleVar (winAt vals w i) with
    | some v => Mag.sq v
    | none => Mag.nan
  else Mag.nan

/-- Elementwise (x - rolling_mean) / rolling_std with IEEE division semantics:
NaN statistics give NaN, a zero standard deviation gives NaN on 0 / 0 and a
signed infinity otherwise. -/
def tsDiv (x : ℚ) (m : Option ℚ) (s : Mag) : ZVal :=
  match m, s with
  | some mv, Mag.sq v =>
    if v = 0 then
      (if x - mv = 0 then ZVal.nan else if 0 < x - mv then ZVal.pinf else ZVal.ninf)
    else ZVal.val (x - mv) v
  | _, _ => ZVal.nan

/-- Rolling z-score at index i. -/
def rollZAt (vals : List ℚ) (w i : Nat) : ZVal :=
  tsDiv (vals.getD i 0) (rollMeanAt vals w i) (rollStdAt vals w i)

/-- Sort key for sort_values on the period column. -/
def rowDateKey (c : String) (r : Row) : String := (r.getStr c).getD ""

/-- Embedding of detect_time_series_anomalies.  The source rebinds its df to a
sorted copy, so the frame of the caller comes back unchanged as the first
component; the second component is the table of flagged points carrying the
three added rolling columns.  The threshold is the module constant 3.0. -/
def detect_time_series_anomalies (df : Df) (value_col : String) (date_col : String) :
    Except String (Df × Df) :=
  match getColStr df date_col with
  | none => Except.error ("missing column: " ++ date_col)
  | some _ =>
    let sorted := List.insertionSort
      (fun a b => rowDateKey date_col a ≤ rowDateKey date_col b) df
    if tsWindow df.length < 2 then Except.ok (df, [])
    else
      match getColNum sorted value_col with
      | none => Except.error ("missing column: " ++ value_col)
      | some vals =>
        let w := (tsWindow df.length).toNat
        let df3 := setCol (setCol (setCol sorted
          "rolling_mean" (((List.range vals.length).map (rollMeanAt vals w)).map Val.onum))
          "rolling_std" (((List.range vals.length).map (rollStdAt vals w)).map Val.mag))
          "rolling_z_score" (((List.range vals.length).map (rollZAt vals w)).map Val.z)
        Except.ok (df, df3.filter (fun r => rowAbsGT r "rolling_z_score" Z_SCORE_THRESHOLD))

/-- Column presence test, the membership test col in df.columns. -/
def hasCol (df : Df) (c : String) : Bool := df.all (fun r => (r.get c).isSome)

/-- Column projection df[[...]] as pandas performs it: every requested column
must exist, else a KeyError. -/
def selectE (df : Df) (cs : List String) : Except String Df :=
  df.mapM (fun r => cs.mapM (fun c =>
    match r.get c with
    | some v => Except.ok (c, v)
    | none => Except.error ("missing column: " ++ c)))

/-- Embedding of analyze_monthly_kpi_anomalies: run the time-series detector on
each tracked KPI column present in the frame, tag nonempty results with the
KPI name, project the four report columns and concatenate. -/
def analyze_monthly_kpi_anomalies (monthly_kpis : Df) : Except String Df := do
  let kpiCols := ["total_revenue", "actual_amount", "profit", "variance_pct"]
  let parts ← (kpiCols.filter (hasCol monthly_kpis)).mapM (fun col => do
    let res ← detect_time_series_anomalies monthly_kpis col "month"
    if res.2.length > 0 then
      let tagged := res.2.map (fun r => r.set "kpi_name" (Val.str col))
      selectE tagged ["month", "kpi_name", col, "rolling_z_score"]
    else pure [])
  pure parts.flatten

/-- Result of generate_anomaly_report.  The mutated cost and loan frames are
carried along because the source mutates them in place through the two
cross-sectional detectors; summary is the Python return value. -/
structure Report where
  costs : Df
  loans : Df
  summary : Df
deriving DecidableEq

/-- Maximum of the absolute values of a score column, pandas skipna. -/
def magAbsMaxOfZCol (df : Df) (c : String) : Mag :=
  (df.map (fun r =>
    match r.get c with
    | some (Val.z zv) => zv.mag
    | _ => Mag.nan)).foldl magMax2 Mag.nan

/-- Magnitude column of a frame, NaN for missing cells. -/
def colMags (df : Df) (c : String) : List Mag :=
  df.map (fun r =>
    match r.get c with
    | some (Val.mag m) => m
    | _ => Mag.nan)

/-- The Costs summary row of generate_anomaly_report: one row when the cost
anomaly table is nonempty, with the grouping value of its top record, the
maximum severity and the summed variance amount; no row otherwise.  The two
cell reads can raise a KeyError like the source. -/
def costSummaryRows (costA : Df) : Except String Df :=
  if costA.length > 0 then
    match (costA.headD []).get "business_unit" with
    | none => Except.error "missing column: business_unit"
    | some top =>
      match getColNum costA "variance_amount" with
      | none => Except.error "missing column: variance_amount"
      | some va =>
        Except.ok [[("category", Val.str "Costs"),
          ("anomaly_count", Val.num (costA.length : ℚ)),
          ("top_issue", top),
          ("max_severity", Val.mag ((colMags costA "severity").foldl magMax2 Mag.nan)),
          ("total_variance", Val.num va.sum)]]
  else Except.ok []

/-- The Loans summary row of generate_anomaly_report, summed over ecl. -/
def loanSummaryRows (loanA : Df) : Except String Df :=
  if loanA.length > 0 then
    match (loanA.headD []).get "loan_type" with
    | none => Except.error "missing column: loan_type"
    | some top =>
      match getColNum loanA "ecl" with
      | none => Except.error "missing column: ecl"
      | some ecl =>
        Except.ok [[("category", Val.str "Loans"),
          ("anomaly_count", Val.num (loanA.length : ℚ)),
          ("top_issue", top),
          ("max_severity", Val.mag ((colMags loanA "severity").foldl magMax2 Mag.nan)),
          ("total_variance", Val.num ecl.sum)]]
  else Except.ok []

/-- The KPIs summary row of generate_anomaly_report: maximum absolute rolling
z-score as severity and the placeholder 0 magnitude. -/
def kpiSummaryRows (kpiA : Df) : Df :=
  if kpiA.length > 0 then
    [[("category", Val.str "KPIs"),
      ("anomaly_count", Val.num (kpiA.length : ℚ)),
      ("top_issue", ((kpiA.headD []).get "kpi_name").getD (Val.str "N/A")),
      ("max_severity", Val.mag (magAbsMaxOfZCol kpiA "rolling_z_score")),
      ("total_variance", Val.num 0)]]
  else []

/-- Embedding of generate_anomaly_report: run the three detections, then build
one summary row per nonempty result set, in the order Costs, Loans, KPIs. -/
def generate_anomaly_report (costs_df loans_df monthly_kpis : Df) :
    Except String Report := do
  let cres ← detect_cost_anomalies costs_df Z_SCORE_THRESHOLD
  let lres ← detect_loan_anomalies loans_df Z_SCORE_THRESHOLD
  let kpiA ← analyze_monthly_kpi_anomalies monthly_kpis
  let costRows ← costSummaryRows cres.2
  let loanRows ← loanSummaryRows lres.2
  pure ⟨cres.1, lres.1, costRows ++ loanRows ++ kpiSummaryRows kpiA⟩

/-- Result of one execution of run: the two frames of the caller after the
in-place mutations, the summary, the three detailed anomaly tables, and the
combined top-10 findings table (written only when nonempty, hence optional). -/
structure RunResult where
  costs : Df
  loans : Df
  summary : Df
  cost_anomalies : Df
  loan_anomalies : Df
  kpi_anomalies : Df
  combined : Option Df
deriving DecidableEq

/-- The Cost block of the combined findings table of run: the four projected
columns of the top 10 cost anomalies, tagged with the category. -/
def costCombinedParts (costA : Df) : Except String (List Df) :=
  if costA.length > 0 then
    match selectE costA ["cost_id", "business_unit", "anomaly_type", "severity"] with
    | Except.error e => Except.error e
    | Except.ok cs =>
      Except.ok [(cs.take 10).map (fun r => r.set "category" (Val.str "Cost"))]
  else Except.ok []

/-- The Loan block of the combined findings table of run. -/
def loanCombinedParts (loanA : Df) : Except String (List Df) :=
  if loanA.length > 0 then
    match selectE loanA ["loan_id", "loan_type", "anomaly_type", "severity"] with
    | Except.error e => Except.error e
    | Except.ok ls =>
      Except.ok [(ls.take 10).map (fun r => r.set "category" (Val.str "Loan"))]
  else Except.ok []

/-- Embedding of run: the report pass (which mutates the cost and loan frames
in place), a second detection pass over the already mutated frames, and the
combined findings built from the top 10 rows of each nonempty detail table. -/
def run (costs_df loans_df monthly_kpis : Df) : Except String RunResult := do
  let rep ← generate_anomaly_report costs_df loans_df monthly_kpis
  let cres ← detect_cost_anomalies rep.costs Z_SCORE_THRESHOLD
  let lres ← detect_loan_anomalies rep.loans Z_SCORE_THRESHOLD
  let kpiA ← analyze_monthly_kpi_anomalies monthly_kpis
  let costParts ← costCombinedParts cres.2
  let loanParts ← loanCombinedParts lres.2
  let combinedParts := costParts ++ loanParts
  pure ⟨cres.1, lres.1, rep.summary, cres.2, lres.2, kpiA,
        if combinedParts.length > 0 then some combinedParts.flatten else none⟩

/-- Embedding of the error boundary of run_analytics.main restricted to the
anomaly stage: a propagated failure is caught at top level and turned into exit
status 1, producing no anomaly report at all. -/
def main_status (costs_df loans_df monthly_kpis : Df) : Int :=
  match run costs_df loans_df monthly_kpis with
  | Except.ok _ => 0
  | Except.error _ => 1

/- Helper lemmas about the row and frame operations. -/

theorem Row.get_set_self (r : Row) (c : String) (v : Val) :
    (r.set c v).get c = some v := by
  induction r with
  | nil => simp [Row.set, Row.get]
  | cons h t ih =>
    obtain ⟨k, w⟩ := h
    by_cases hk : k = c
    · simp [Row.set, hk, Row.get]
    · simp [Row.set, hk, Row.get, ih]

theorem Row.get_set_ne (r : Row) {c k : String} (h : k ≠ c) (v : Val) :
    (r.set k v).get c = r.get c := by
  induction r with
  | nil => simp [Row.set, Row.get, h]
  | cons hd t ih =>
    obtain ⟨k0, w⟩ := hd
    by_cases hk : k0 = k
    · subst hk
      simp [Row.set, Row.get, h, ih]
    · simp [Row.set, hk, Row.get, ih]

theorem Row.set_set (r : Row) (c : String) (v w : Val) :
    (r.set c v).set c w = r.set c w := by
  induction r with
  | nil => simp [Row.set]
  | cons hd t ih =>
    obtain ⟨k0, u⟩ := hd
    by_cases hk : k0 = c
    · simp [Row.set, hk]
    · simp [Row.set, hk, ih]

theorem Row.set_swap_collapse (r : Row) {a b : String} (h : a ≠ b) (x y x' : Val) :
    ((r.set a x).set b y).set a x' = (r.set a x').set b y := by
  induction r with
  | nil => simp [Row.set, h, Ne.symm h]
  | cons hd t ih =>
    obtain ⟨k0, u⟩ := hd
    by_cases hka : k0 = a
    · subst hka
      simp [Row.set, h, Ne.symm h]
    · by_cases hkb : k0 = b
      · subst hkb
        simp [Row.set, hka, Row.set_set]
      · simp [Row.set, hka, hkb, ih]

theorem Row.getNum_set_ne (r : Row) {c k : String} (h : k ≠ c) (v : Val) :
    (r.set k v).getNum c = r.getNum c := by
  simp [Row.getNum, Row.get_set_ne r h v]

theorem setCol_nil_vals (df : Df) (c : String) : setCol df c [] = df := by
  cases df <;> rfl

theorem length_setCol (df : Df) (c : String) (vs : List Val) :
    (setCol df c vs).length = df.length := by
  induction df generalizing vs with
  | nil => cases vs <;> rfl
  | cons r rs ih =>
    cases vs with
    | nil => rfl
    | cons v vt => simp [setCol, ih]

theorem getColNum_setCol_ne (df : Df) {c k : String} (h : k ≠ c) (vs : List Val) :
    getColNum (setCol df k vs) c = getColNum df c := by
  induction df generalizing vs with
  | nil => cases vs <;> rfl
  | cons r rs ih =>
    cases vs with
    | nil => rfl
    | cons v vt => simp [setCol, getColNum, Row.getNum_set_ne r h v, ih]

theorem getColVals_setCol_ne (df : Df) {c k : String} (h : k ≠ c) (vs : List Val) :
    getColVals (setCol df k vs) c = getColVals df c := by
  induction df generalizing vs with
  | nil => cases vs <;> rfl
  | cons r rs ih =>
    cases vs with
    | nil => rfl
    | cons v vt => simp [setCol, getColVals, Row.get_set_ne r h v, ih]

theorem getColNum_length {df : Df} {c : String} {xs : List ℚ}
    (h : getColNum df c = some xs) : xs.length = df.length := by
  induction df generalizing xs with
  | nil =>
    simp [getColNum] at h
    simp [← h]
  | cons r rs ih =>
    simp only [getColNum] at h
    cases hx : r.getNum c with
    | none => rw [hx] at h; exact absurd h (by simp)
    | some x =>
      rw [hx] at h
      cases hxs : getColNum rs c with
      | none => rw [hxs] at h; exact absurd h (by simp)
      | some t =>
        rw [hxs] at h
        simp at h
        subst h
        simp [ih hxs]

theorem mem_setCol {df : Df} {c : String} {vs : List Val} {r : Row}
    (hlen : vs.length = df.length) (h : r ∈ setCol df c vs) :
    ∃ r0 v, r0 ∈ df ∧ v ∈ vs ∧ r = r0.set c v := by
  induction df generalizing vs with
  | nil =>
    cases vs with
    | nil => simp [setCol] at h
    | cons v vt => simp at hlen
  | cons r1 rs ih =>
    cases vs with
    | nil => simp at hlen
    | cons v vt =>
      simp only [setCol, List.mem_cons] at h
      rcases h with h | h
      · exact ⟨r1, v, by simp, by simp, h⟩
      · simp only [List.length_cons, Nat.succ_inj] at hlen
        obtain ⟨r0, w, hr0, hw, he⟩ := ih hlen h
        exact ⟨r0, w, by simp [hr0], by simp [hw], he⟩

theorem setCol_idem (df : Df) (c : String) (vs : List Val) :
    setCol (setCol df c vs) c vs = setCol df c vs := by
  induction df generalizing vs with
  | nil => cases vs <;> rfl
  | cons r rs ih =>
    cases vs with
    | nil => rfl
    | cons v vt => simp [setCol, Row.set_set, ih]

theorem setCol_swap_collapse (df : Df) {a b : String} (h : a ≠ b)
    (us ws : List Val) :
    setCol (setCol (setCol df a us) b ws) a us = setCol (setCol df a us) b ws := by
  induction df generalizing us ws with
  | nil =>
    cases us with
    | nil => cases ws <;> rfl
    | cons u ut => cases ws <;> rfl
  | cons r rs ih =>
    cases us with
    | nil =>
      simp [setCol_nil_vals]
    | cons u ut =>
      cases ws with
      | nil =>
        simp only [setCol_nil_vals, setCol]
        simp [Row.set_set, setCol_idem]
      | cons w wt =>
        simp [setCol, Row.set_swap_collapse r h, ih]

/- Statistical inequalities: in a population of n values, the squared deviation
of any member from the mean is at most (n - 1) ^ 2 / n times the sample
variance, so with at most 10 values no standardized score can exceed 3. -/

theorem list_sum_sq_nonneg (l : List ℚ) : 0 ≤ (l.map (fun x => x ^ 2)).sum := by
  induction l with
  | nil => simp
  | cons a t ih =>
    simp only [List.map_cons, List.sum_cons]
    positivity

theorem list_sq_sum_le (l : List ℚ) :
    (l.sum) ^ 2 ≤ (l.length : ℚ) * (l.map (fun x => x ^ 2)).sum := by
  induction l with
  | nil => simp
  | cons a t ih =>
    simp only [List.sum_cons, List.map_cons, List.length_cons]
    have hq : 0 ≤ (t.map (fun x => x ^ 2)).sum := list_sum_sq_nonneg t
    push_cast
    cases t with
    | nil => simp
    | cons b u =>
      have hk1 : (1 : ℚ) ≤ ((b :: u).length : ℚ) := by
        have : 0 < (b :: u).length := by simp
        exact_mod_cast this
      have hk0 : (0 : ℚ) ≤ ((b :: u).length : ℚ) := by linarith
      nlinarith [sq_nonneg (((b :: u).length : ℚ) * a - (b :: u).sum), ih, hq,
        mul_nonneg hk0 (sub_nonneg.mpr ih), sub_nonneg.mpr ih]

theorem sum_map_sub_const (l : List ℚ) (m : ℚ) :
    (l.map (fun x => x - m)).sum = l.sum - (l.length : ℚ) * m := by
  induction l with
  | nil => simp
  | cons a t ih =>
    simp only [List.map_cons, List.sum_cons, List.length_cons, ih]
    push_cast
    ring

theorem sum_dev_mean_eq_zero {l : List ℚ} (h : l ≠ []) :
    (l.map (fun x => x - mean l)).sum = 0 := by
  have hn : (l.length : ℚ) ≠ 0 := by
    have h0 : l.length ≠ 0 := fun h0 => h (List.length_eq_zero.mp h0)
    exact_mod_cast h0
  rw [sum_map_sub_const, mean]
  field_simp

theorem dev_sq_le_of_mem {l : List ℚ} {x : ℚ} {v : ℚ}
    (hx : x ∈ l) (hv : sampleVar l = some v) :
    (x - mean l) ^ 2 * (l.length : ℚ) ≤ ((l.length : ℚ) - 1) ^ 2 * v := by
  obtain ⟨s, t, rfl⟩ := List.append_of_mem hx
  set l := s ++ x :: t with hl
  have hlen2 : 2 ≤ l.length := by
    by_contra hc
    have : l.length ≤ 1 := by omega
    simp [sampleVar, this] at hv
  have hne : l ≠ [] := by
    intro hnil
    rw [hnil] at hlen2
    simp at hlen2
  have hn1 : ((l.length : ℚ) - 1) ≠ 0 := by
    have : (2 : ℚ) ≤ (l.length : ℚ) := by exact_mod_cast hlen2
    linarith
  -- the sum of squared deviations equals (n - 1) * v
  have hvdef : (l.map (fun y => (y - mean l) ^ 2)).sum = ((l.length : ℚ) - 1) * v := by
    have hgt : ¬ l.length ≤ 1 := by omega
    simp only [sampleVar, hgt, if_false, Option.some_inj] at hv
    rw [← hv]
    field_simp
  -- deviations of the remaining elements sum to the negated deviation of x
  have hsplit : ((s.map (fun y => y - mean l)) ++ (t.map (fun y => y - mean l))).sum
      = -(x - mean l) := by
    have h0 := sum_dev_mean_eq_zero hne
    rw [hl] at h0
    simp only [List.map_append, List.map_cons, List.sum_append, List.sum_cons] at h0 ⊢
    linarith
  have hrestlen : (((s.map (fun y => y - mean l)) ++ (t.map (fun y => y - mean l))).length : ℚ)
      = (l.length : ℚ) - 1 := by
    simp [hl]
    ring
  have hcs := list_sq_sum_le ((s.map (fun y => y - mean l)) ++ (t.map (fun y => y - mean l)))
  rw [hsplit, hrestlen] at hcs
  -- the remaining squared deviations are the total minus the one of x
  have hrest : (((s.map (fun y => y - mean l)) ++ (t.map (fun y => y - mean l))).map
      (fun x => x ^ 2)).sum = ((l.length : ℚ) - 1) * v - (x - mean l) ^ 2 := by
    rw [← hvdef, hl]
    simp only [List.map_append, List.map_cons, List.sum_append, List.sum_cons,
      List.map_map]
    have hs : (s.map fun y => (y - mean l) ^ 2) = s.map ((fun x => x ^ 2) ∘ fun y => y - mean l) := by
      simp [Function.comp]
    have ht : (t.map fun y => (y - mean l) ^ 2) = t.map ((fun x => x ^ 2) ∘ fun y => y - mean l) := by
      simp [Function.comp]
    rw [hs, ht]
    ring
  rw [hrest] at hcs
  have hneg : (-(x - mean l)) ^ 2 = (x - mean l) ^ 2 := by ring
  rw [hneg] at hcs
  nlinarith [hcs]

theorem sampleVar_nonneg {l : List ℚ} {v : ℚ} (h : sampleVar l = some v) : 0 ≤ v := by
  unfold sampleVar at h
  by_cases hl : l.length ≤ 1
  · simp [hl] at h
  · simp only [hl, if_false, Option.some_inj] at h
    rw [← h]
    apply div_nonneg
    · apply List.sum_nonneg
      intro y hy
      simp only [List.mem_map] at hy
      obtain ⟨x, _, rfl⟩ := hy
      positivity
    · have : 2 ≤ l.length := by omega
      have h2 : (2 : ℚ) ≤ (l.length : ℚ) := by exact_mod_cast this
      linarith

theorem sampleVar_some_len {l : List ℚ} {v : ℚ} (h : sampleVar l = some v) :
    2 ≤ l.length := by
  unfold sampleVar at h
  by_cases hl : l.length ≤ 1
  · simp [hl] at h
  · omega

/-- In a population of at most 10 values, no standardized score can exceed the
threshold 3: the squared deviation of any member is at most
(n - 1) ^ 2 / n <= 81 / 10 < 9 times the sample variance. -/
theorem dev_sq_le_nine_var {l : List ℚ} {x v : ℚ} (hx : x ∈ l)
    (hv : sampleVar l = some v) (hlen : l.length ≤ 10) :
    (x - mean l) ^ 2 ≤ 9 * v := by
  have hb := dev_sq_le_of_mem hx hv
  have h2 := sampleVar_some_len hv
  have hvn := sampleVar_nonneg hv
  have hn2 : (2 : ℚ) ≤ (l.length : ℚ) := by exact_mod_cast h2
  have hn10 : (l.length : ℚ) ≤ 10 := by exact_mod_cast hlen
  nlinarith [mul_nonneg (mul_nonneg (by linarith : (0 : ℚ) ≤ (l.length : ℚ) - 2)
    (by linarith : (0 : ℚ) ≤ 10 - (l.length : ℚ))) hvn, sq_nonneg (x - mean l)]

/-- Over a population of at most 10 values, calculate_z_score produces no score
whose absolute value exceeds 3. -/
theorem calculate_z_score_no_flag {l : List ℚ} (hlen : l.length ≤ 10) :
    ∀ z ∈ calculate_z_score l, z.absGT 3 = false := by
  intro z hz
  unfold calculate_z_score at hz
  cases hv : sampleVar l with
  | none =>
    rw [hv] at hz
    simp only [List.mem_map] at hz
    obtain ⟨_, _, rfl⟩ := hz
    rfl
  | some v =>
    rw [hv] at hz
    by_cases h0 : v = 0
    · simp only [h0, if_true, List.mem_map] at hz
      obtain ⟨_, _, rfl⟩ := hz
      rfl
    · simp only [h0, if_false, List.mem_map] at hz
      obtain ⟨x, hxl, rfl⟩ := hz
      have hb := dev_sq_le_nine_var hxl hv hlen
      simp only [ZVal.absGT, decide_eq_false_iff_not, not_or, not_lt]
      exact ⟨by norm_num, by nlinarith⟩

theorem calculate_z_score_length (l : List ℚ) :
    (calculate_z_score l).length = l.length := by
  unfold calculate_z_score
  cases sampleVar l with
  | none => simp
  | some v => by_cases h : v = 0 <;> simp [h]

theorem winAt_length {vals : List ℚ} {w i : Nat} (hwi : w ≤ i + 1)
    (hi : i < vals.length) : (winAt vals w i).length = w := by
  simp only [winAt, List.length_take, List.length_drop]
  omega

theorem winAt_getD_mem {vals : List ℚ} {w i : Nat} (hw : 1 ≤ w)
    (hwi : w ≤ i + 1) (hi : i < vals.length) :
    vals.getD i 0 ∈ winAt vals w i := by
  have hlen : (winAt vals w i).length = w := winAt_length hwi hi
  have hwlt : w - 1 < (winAt vals w i).length := by omega
  have hidx : i + 1 - w + (w - 1) < vals.length := by omega
  have e : (winAt vals w i).get ⟨w - 1, hwlt⟩ = vals.getD i 0 := by
    have h1 : (winAt vals w i).get ⟨w - 1, hwlt⟩ = (winAt vals w i)[w - 1] := rfl
    rw [h1]
    unfold winAt
    rw [List.getElem_take, List.getElem_drop]
    rw [List.getD_eq_getElem vals 0 hi]
    congr 1
    omega
  rw [← e]
  exact List.get_mem _ _ _

/-- No point of a rolling window of 2 to 10 observations can have an absolute
rolling z-score above 3, because the window contains the point itself. -/
theorem rollZAt_no_flag {vals : List ℚ} {w i : Nat} (hw2 : 2 ≤ w) (hw10 : w ≤ 10)
    (hi : i < vals.length) : (rollZAt vals w i).absGT 3 = false := by
  unfold rollZAt rollMeanAt rollStdAt
  set x := vals.getD i 0 with hx
  clear_value x
  by_cases hwi : w ≤ i + 1
  · simp only [hwi, if_true]
    have hlen : (winAt vals w i).length = w := winAt_length hwi hi
    cases hsv : sampleVar (winAt vals w i) with
    | none => rfl
    | some v =>
      have hmem : x ∈ winAt vals w i := by
        rw [hx]
        exact winAt_getD_mem (by omega) hwi hi
      have hb := dev_sq_le_nine_var hmem hsv (by omega)
      by_cases h0 : v = 0
      · have hnum : x - mean (winAt vals w i) = 0 := by
          nlinarith [hb, sq_nonneg (x - mean (winAt vals w i))]
        simp [tsDiv, hnum, h0, ZVal.absGT]
      · simp only [tsDiv, h0, if_false]
        simp only [ZVal.absGT, decide_eq_false_iff_not, not_or, not_lt]
        exact ⟨by norm_num, by nlinarith [hb]⟩
  · simp only [hwi, if_false]
    rfl

theorem Row.set_get_self {r : Row} {c : String} {v : Val}
    (h : r.get c = some v) : r.set c v = r := by
  induction r with
  | nil => simp [Row.get] at h
  | cons hd t ih =>
    obtain ⟨k, w⟩ := hd
    by_cases hk : k = c
    · subst hk
      simp [Row.get] at h
      simp [Row.set, h]
    · simp only [Row.get, hk, if_false] at h
      simp [Row.set, hk, ih h]

theorem getColVals_setCol_self {df : Df} {c : String} {vs : List Val}
    (hlen : vs.length = df.length) :
    getColVals (setCol df c vs) c = some vs := by
  induction df generalizing vs with
  | nil =>
    cases vs with
    | nil => rfl
    | cons v vt => simp at hlen
  | cons r rs ih =>
    cases vs with
    | nil => simp at hlen
    | cons v vt =>
      simp only [List.length_cons, Nat.succ_inj] at hlen
      simp [setCol, getColVals, Row.getNum, Row.get_set_self, ih hlen]

theorem setCol_of_getColVals {df : Df} {c : String} {vs : List Val}
    (h : getColVals df c = some vs) : setCol df c vs = df := by
  induction df generalizing vs with
  | nil =>
    simp only [getColVals, Option.some_inj] at h
    rw [← h]
    rfl
  | cons r rs ih =>
    simp only [getColVals] at h
    cases hr : r.get c with
    | none => rw [hr] at h; exact absurd h (by simp)
    | some v =>
      rw [hr] at h
      cases ht : getColVals rs c with
      | none => rw [ht] at h; exact absurd h (by simp)
      | some vt =>
        rw [ht] at h
        simp only [Option.some_inj] at h
        rw [← h]
        simp [setCol, Row.set_get_self hr, ih ht]

/-- Every successful call of the time-series detector returns an empty anomaly
table: the trailing window contains the scored point itself, and with a window
of 2 or 3 observations no absolute rolling z-score can reach the threshold 3;
degenerate windows produce NaN and are excluded from flagging. -/
theorem ts_anomalies_nil {df : Df} {vc dc : String} {res : Df × Df}
    (h : detect_time_series_anomalies df vc dc = Except.ok res) : res.2 = [] := by
  unfold detect_time_series_anomalies at h
  cases h1 : getColStr df dc with
  | none => rw [h1] at h; exact absurd h (by simp)
  | some ds =>
    simp only [h1] at h
    by_cases hw : tsWindow df.length < 2
    · simp only [hw, if_true] at h
      have h3 : (df, ([] : Df)) = res := by
        injection h
      rw [← h3]
    · simp only [hw, if_false] at h
      cases h2 : getColNum
          (List.insertionSort (fun a b => rowDateKey dc a ≤ rowDateKey dc b) df) vc with
      | none => rw [h2] at h; exact absurd h (by simp)
      | some vals =>
        simp only [h2] at h
        have hres := (Except.ok.injEq _ _).mp h.symm
        rw [hres]
        apply List.filter_eq_nil_iff.mpr
        intro r hr
        -- lengths of the three assigned columns all equal the frame length
        have hvlen : vals.length =
            (List.insertionSort (fun a b => rowDateKey dc a ≤ rowDateKey dc b) df).length :=
          getColNum_length h2
        have hfr : (setCol (setCol
            (List.insertionSort (fun a b => rowDateKey dc a ≤ rowDateKey dc b) df)
            "rolling_mean"
            (((List.range vals.length).map (rollMeanAt vals ((tsWindow df.length).toNat))).map Val.onum))
            "rolling_std"
            (((List.range vals.length).map (rollStdAt vals ((tsWindow df.length).toNat))).map Val.mag)).length
            = vals.length := by
          rw [length_setCol, length_setCol, ← hvlen]
        have hzlen : ((((List.range vals.length).map
            (rollZAt vals ((tsWindow df.length).toNat))).map Val.z)).length = vals.length := by
          simp
        obtain ⟨r0, v, _, hv, rfl⟩ := mem_setCol (by rw [hzlen, hfr]) hr
        simp only [List.mem_map] at hv
        obtain ⟨zv, hzv, rfl⟩ := hv
        obtain ⟨i, hi, rfl⟩ := hzv
        rw [List.mem_range] at hi
        have hw2 : 2 ≤ (tsWindow df.length).toNat := by
          unfold tsWindow at hw ⊢
          omega
        have hw10 : (tsWindow df.length).toNat ≤ 10 := by
          unfold tsWindow
          omega
        simp only [rowAbsGT, Row.get_set_self]
        have := rollZAt_no_flag hw2 hw10 hi
        simp only [Z_SCORE_THRESHOLD, this]
        simp

/-- Inversion of a successful cost detection call: the two column reads that
succeeded, the mutated frame, and the anomaly table it returns. -/
theorem detect_cost_inv {df : Df} {t : ℚ} {p : Df × Df}
    (h : detect_cost_anomalies df t = Except.ok p) :
    ∃ vpct aamt,
      getColNum df "variance_pct" = some vpct ∧
      getColNum (setCol df "variance_z_score" ((calculate_z_score vpct).map Val.z))
        "actual_amount" = some aamt ∧
      p.1 = setCol (setCol df "variance_z_score" ((calculate_z_score vpct).map Val.z))
        "actual_z_score" ((calculate_z_score aamt).map Val.z) ∧
      p.2 = List.insertionSort (fun a b => sevBefore a b = true)
        ((p.1.filter (fun r =>
          rowAbsGT r "variance_z_score" t || rowAbsGT r "actual_z_score" t)).map
          (decorateCost t)) := by
  unfold detect_cost_anomalies at h
  cases h1 : getColNum df "variance_pct" with
  | none => rw [h1] at h; exact absurd h (by simp)
  | some vpct =>
    simp only [h1] at h
    cases h2 : getColNum (setCol df "variance_z_score"
        ((calculate_z_score vpct).map Val.z)) "actual_amount" with
    | none =>
      simp only [h2] at h
      exact absurd h (by simp)
    | some aamt =>
      simp only [h2] at h
      have h3 := h
      injection h3 with h4
      subst h4
      exact ⟨vpct, aamt, rfl, h2, rfl, rfl⟩

/-- Inversion of a successful loan detection call. -/
theorem detect_loan_inv {df : Df} {t : ℚ} {p : Df × Df}
    (h : detect_loan_anomalies df t = Except.ok p) :
    ∃ pdv eclv eadv,
      getColNum df "pd" = some pdv ∧
      getColNum (setCol df "pd_z_score" ((calculate_z_score pdv).map Val.z))
        "ecl" = some eclv ∧
      getColNum (setCol (setCol df "pd_z_score" ((calculate_z_score pdv).map Val.z))
        "ecl_z_score" ((calculate_z_score eclv).map Val.z)) "ead" = some eadv ∧
      p.1 = setCol (setCol (setCol df "pd_z_score" ((calculate_z_score pdv).map Val.z))
        "ecl_z_score" ((calculate_z_score eclv).map Val.z))
        "ead_z_score" ((calculate_z_score eadv).map Val.z) ∧
      p.2 = List.insertionSort (fun a b => sevBefore a b = true)
        ((p.1.filter (fun r =>
          rowAbsGT r "pd_z_score" t || rowAbsGT r "ecl_z_score" t ||
            rowAbsGT r "ead_z_score" t)).map (decorateLoan t)) := by
  unfold detect_loan_anomalies at h
  cases h1 : getColNum df "pd" with
  | none => rw [h1] at h; exact absurd h (by simp)
  | some pdv =>
    simp only [h1] at h
    cases h2 : getColNum (setCol df "pd_z_score"
        ((calculate_z_score pdv).map Val.z)) "ecl" with
    | none =>
      simp only [h2] at h
      exact absurd h (by simp)
    | some eclv =>
      simp only [h2] at h
      cases h3 : getColNum (setCol (setCol df "pd_z_score"
          ((calculate_z_score pdv).map Val.z)) "ecl_z_score"
          ((calculate_z_score eclv).map Val.z)) "ead" with
      | none =>
        simp only [h3] at h
        exact absurd h (by simp)
      | some eadv =>
        simp only [h3] at h
        have h4 := h
        injection h4 with h5
        subst h5
        exact ⟨pdv, eclv, eadv, rfl, h2, h3, rfl, rfl⟩

/-- A cost frame of at most 10 rows can never produce an anomaly at the default
threshold 3. -/
theorem detect_cost_nil_of_small {df : Df} {p : Df × Df} (hlen : df.length ≤ 10)
    (h : detect_cost_anomalies df 3 = Except.ok p) : p.2 = [] := by
  obtain ⟨vpct, aamt, h1, h2, hp1, hp2⟩ := detect_cost_inv h
  rw [hp2]
  have hne1 : ("actual_z_score" : String) ≠ "variance_z_score" := by decide
  have hl1 : vpct.length = df.length := getColNum_length h1
  have hlen1 : ((calculate_z_score vpct).map Val.z).length = df.length := by
    simp [calculate_z_score_length, hl1]
  have hdf1len : (setCol df "variance_z_score"
      ((calculate_z_score vpct).map Val.z)).length = df.length := length_setCol _ _ _
  have hl2 : aamt.length = df.length := by
    rw [getColNum_length h2, hdf1len]
  have hlen2 : ((calculate_z_score aamt).map Val.z).length = df.length := by
    simp [calculate_z_score_length, hl2]
  have hfil : (p.1.filter (fun r =>
      rowAbsGT r "variance_z_score" 3 || rowAbsGT r "actual_z_score" 3)) = [] := by
    apply List.filter_eq_nil_iff.mpr
    intro r hr
    rw [hp1] at hr
    obtain ⟨r1, v2, hr1, hv2, rfl⟩ := mem_setCol (by rw [hlen2, hdf1len]) hr
    obtain ⟨r0, v1, hr0, hv1, rfl⟩ := mem_setCol (by rw [hlen1]) hr1
    simp only [List.mem_map] at hv1 hv2
    obtain ⟨z1, hz1, rfl⟩ := hv1
    obtain ⟨z2, hz2, rfl⟩ := hv2
    have hf1 : ZVal.absGT z1 3 = false :=
      calculate_z_score_no_flag (by rw [hl1]; exact hlen) z1 hz1
    have hf2 : ZVal.absGT z2 3 = false :=
      calculate_z_score_no_flag (by rw [hl2]; exact hlen) z2 hz2
    simp [rowAbsGT, Row.get_set_self, Row.get_set_ne _ hne1, hf1, hf2]
  rw [hfil]
  simp

/-- A loan frame of at most 10 rows can never produce an anomaly at the default
threshold 3. -/
theorem detect_loan_nil_of_small {df : Df} {p : Df × Df} (hlen : df.length ≤ 10)
    (h : detect_loan_anomalies df 3 = Except.ok p) : p.2 = [] := by
  obtain ⟨pdv, eclv, eadv, h1, h2, h3, hp1, hp2⟩ := detect_loan_inv h
  rw [hp2]
  have hne1 : ("ecl_z_score" : String) ≠ "pd_z_score" := by decide
  have hne2 : ("ead_z_score" : String) ≠ "pd_z_score" := by decide
  have hne3 : ("ead_z_score" : String) ≠ "ecl_z_score" := by decide
  have hl1 : pdv.length = df.length := getColNum_length h1
  have hlen1 : ((calculate_z_score pdv).map Val.z).length = df.length := by
    simp [calculate_z_score_length, hl1]
  have hdf1len : (setCol df "pd_z_score"
      ((calculate_z_score pdv).map Val.z)).length = df.length := length_setCol _ _ _
  have hl2 : eclv.length = df.length := by
    rw [getColNum_length h2, hdf1len]
  have hlen2 : ((calculate_z_score eclv).map Val.z).length = df.length := by
    simp [calculate_z_score_length, hl2]
  have hdf2len : (setCol (setCol df "pd_z_score" ((calculate_z_score pdv).map Val.z))
      "ecl_z_score" ((calculate_z_score eclv).map Val.z)).length = df.length := by
    rw [length_setCol, hdf1len]
  have hl3 : eadv.length = df.length := by
    rw [getColNum_length h3, hdf2len]
  have hlen3 : ((calculate_z_score eadv).map Val.z).length = df.length := by
    simp [calculate_z_score_length, hl3]
  have hfil : (p.1.filter (fun r =>
      rowAbsGT r "pd_z_score" 3 || rowAbsGT r "ecl_z_score" 3 ||
        rowAbsGT r "ead_z_score" 3)) = [] := by
    apply List.filter_eq_nil_iff.mpr
    intro r hr
    rw [hp1] at hr
    obtain ⟨r2, v3, hr2, hv3, rfl⟩ := mem_setCol (by rw [hlen3, hdf2len]) hr
    obtain ⟨r1, v2, hr1, hv2, rfl⟩ := mem_setCol (by rw [hlen2, hdf1len]) hr2
    obtain ⟨r0, v1, hr0, hv1, rfl⟩ := mem_setCol (by rw [hlen1]) hr1
    simp only [List.mem_map] at hv1 hv2 hv3
    obtain ⟨z1, hz1, rfl⟩ := hv1
    obtain ⟨z2, hz2, rfl⟩ := hv2
    obtain ⟨z3, hz3, rfl⟩ := hv3
    have hf1 : ZVal.absGT z1 3 = false :=
      calculate_z_score_no_flag (by rw [hl1]; exact hlen) z1 hz1
    have hf2 : ZVal.absGT z2 3 = false :=
      calculate_z_score_no_flag (by rw [hl2]; exact hlen) z2 hz2
    have hf3 : ZVal.absGT z3 3 = false :=
      calculate_z_score_no_flag (by rw [hl3]; exact hlen) z3 hz3
    simp [rowAbsGT, Row.get_set_self, Row.get_set_ne _ hne1, Row.get_set_ne _ hne2,
      Row.get_set_ne _ hne3, hf1, hf2, hf3]
  rw [hfil]
  simp

/-- Running the cost detector on the frame it has already mutated recomputes
exactly the same scores (the source columns are untouched), overwrites the two
z-score columns with identical values, and returns the same result pair. -/
theorem detect_cost_idem {df : Df} {t : ℚ} {p : Df × Df}
    (h : detect_cost_anomalies df t = Except.ok p) :
    detect_cost_anomalies p.1 t = Except.ok p := by
  obtain ⟨vpct, aamt, h1, h2, hp1, hp2⟩ := detect_cost_inv h
  have hneA : ("actual_z_score" : String) ≠ "variance_pct" := by decide
  have hneB : ("variance_z_score" : String) ≠ "variance_pct" := by decide
  have hneC : ("actual_z_score" : String) ≠ "actual_amount" := by decide
  have hneD : ("actual_z_score" : String) ≠ "variance_z_score" := by decide
  have hl1 : ((calculate_z_score vpct).map Val.z).length = df.length := by
    simp [calculate_z_score_length, getColNum_length h1]
  have hdf1len : (setCol df "variance_z_score"
      ((calculate_z_score vpct).map Val.z)).length = df.length := length_setCol _ _ _
  have hl2 : ((calculate_z_score aamt).map Val.z).length =
      (setCol df "variance_z_score" ((calculate_z_score vpct).map Val.z)).length := by
    simp [calculate_z_score_length, getColNum_length h2]
  have hA : getColNum p.1 "variance_pct" = some vpct := by
    rw [hp1, getColNum_setCol_ne _ hneA _, getColNum_setCol_ne _ hneB _, h1]
  have hB : getColNum p.1 "actual_amount" = some aamt := by
    rw [hp1, getColNum_setCol_ne _ hneC _, h2]
  have hS1 : setCol p.1 "variance_z_score" ((calculate_z_score vpct).map Val.z) = p.1 := by
    apply setCol_of_getColVals
    rw [hp1, getColVals_setCol_ne _ hneD _]
    exact getColVals_setCol_self (by rw [hl1])
  have hS2 : setCol p.1 "actual_z_score" ((calculate_z_score aamt).map Val.z) = p.1 := by
    apply setCol_of_getColVals
    rw [hp1]
    exact getColVals_setCol_self hl2
  unfold detect_cost_anomalies
  simp only [hA, hS1, hB, hS2, ← hp2]

/-- Running the loan detector on the frame it has already mutated returns the
same result pair. -/
theorem detect_loan_idem {df : Df} {t : ℚ} {p : Df × Df}
    (h : detect_loan_anomalies df t = Except.ok p) :
    detect_loan_anomalies p.1 t = Except.ok p := by
  obtain ⟨pdv, eclv, eadv, h1, h2, h3, hp1, hp2⟩ := detect_loan_inv h
  have hneA : ("ead_z_score" : String) ≠ "pd" := by decide
  have hneB : ("ecl_z_score" : String) ≠ "pd" := by decide
  have hneC : ("pd_z_score" : String) ≠ "pd" := by decide
  have hneD : ("ead_z_score" : String) ≠ "ecl" := by decide
  have hneE : ("ecl_z_score" : String) ≠ "ecl" := by decide
  have hneF : ("ead_z_score" : String) ≠ "ead" := by decide
  have hneG : ("ead_z_score" : String) ≠ "pd_z_score" := by decide
  have hneH : ("ecl_z_score" : String) ≠ "pd_z_score" := by decide
  have hneI : ("ead_z_score" : String) ≠ "ecl_z_score" := by decide
  have hl1 : ((calculate_z_score pdv).map Val.z).length = df.length := by
    simp [calculate_z_score_length, getColNum_length h1]
  have hdf1len : (setCol df "pd_z_score"
      ((calculate_z_score pdv).map Val.z)).length = df.length := length_setCol _ _ _
  have hl2 : ((calculate_z_score eclv).map Val.z).length =
      (setCol df "pd_z_score" ((calculate_z_score pdv).map Val.z)).length := by
    simp [calculate_z_score_length, getColNum_length h2]
  have hl3 : ((calculate_z_score eadv).map Val.z).length =
      (setCol (setCol df "pd_z_score" ((calculate_z_score pdv).map Val.z))
        "ecl_z_score" ((calculate_z_score eclv).map Val.z)).length := by
    simp [calculate_z_score_length, getColNum_length h3]
  have hA : getColNum p.1 "pd" = some pdv := by
    rw [hp1, getColNum_setCol_ne _ hneA _, getColNum_setCol_ne _ hneB _,
      getColNum_setCol_ne _ hneC _, h1]
  have hB : getColNum p.1 "ecl" = some eclv := by
    rw [hp1, getColNum_setCol_ne _ hneD _, getColNum_setCol_ne _ hneE _, h2]
  have hC : getColNum p.1 "ead" = some eadv := by
    rw [hp1, getColNum_setCol_ne _ hneF _, h3]
  have hS1 : setCol p.1 "pd_z_score" ((calculate_z_score pdv).map Val.z) = p.1 := by
    apply setCol_of_getColVals
    rw [hp1, getColVals_setCol_ne _ hneG _, getColVals_setCol_ne _ hneH _]
    exact getColVals_setCol_self (by rw [hl1])
  have hS2 : setCol p.1 "ecl_z_score" ((calculate_z_score eclv).map Val.z) = p.1 := by
    apply setCol_of_getColVals
    rw [hp1, getColVals_setCol_ne _ hneI _]
    exact getColVals_setCol_self hl2
  have hS3 : setCol p.1 "ead_z_score" ((calculate_z_score eadv).map Val.z) = p.1 := by
    apply setCol_of_getColVals
    rw [hp1]
    exact getColVals_setCol_self hl3
  unfold detect_loan_anomalies
  simp only [hA, hS1, hB, hS2, hC, hS3, ← hp2]

theorem except_bind_ok {α β : Type} (a : α) (f : α → Except String β) :
    (Except.ok a >>= f) = f a := rfl

theorem except_bind_error {α β : Type} (e : String) (f : α → Except String β) :
    ((Except.error e : Except String α) >>= f) = Except.error e := rfl

theorem except_bind_inv {α β : Type} {x : Except String α} {f : α → Except String β}
    {b : β} (h : (x >>= f) = Except.ok b) :
    ∃ a, x = Except.ok a ∧ f a = Except.ok b := by
  cases x with
  | error e =>
    rw [except_bind_error] at h
    exact absurd h (by simp)
  | ok a => exact ⟨a, rfl, h⟩

/-- Inversion of a successful report call: the two detector calls succeeded and
the report carries their mutated frames. -/
theorem generate_report_inv {costs_df loans_df monthly_kpis : Df} {rep : Report}
    (h : generate_anomaly_report costs_df loans_df monthly_kpis = Except.ok rep) :
    ∃ cres lres,
      detect_cost_anomalies costs_df Z_SCORE_THRESHOLD = Except.ok cres ∧
      detect_loan_anomalies loans_df Z_SCORE_THRESHOLD = Except.ok lres ∧
      rep.costs = cres.1 ∧ rep.loans = lres.1 := by
  unfold generate_anomaly_report at h
  obtain ⟨cres, hc, h⟩ := except_bind_inv h
  obtain ⟨lres, hl, h⟩ := except_bind_inv h
  obtain ⟨kpiA, hk, h⟩ := except_bind_inv h
  obtain ⟨costRows, hcr, h⟩ := except_bind_inv h
  obtain ⟨loanRows, hlr, h⟩ := except_bind_inv h
  have h9 := Except.ok.inj h
  refine ⟨cres, lres, hc, hl, ?_, ?_⟩
  · rw [← h9]
  · rw [← h9]

/-- Running generate_anomaly_report again on the frames it has already mutated
produces the identical report. -/
theorem generate_report_idem {costs_df loans_df monthly_kpis : Df} {rep : Report}
    (h : generate_anomaly_report costs_df loans_df monthly_kpis = Except.ok rep) :
    generate_anomaly_report rep.costs rep.loans monthly_kpis = Except.ok rep := by
  unfold generate_anomaly_report at h
  obtain ⟨cres, hc, h⟩ := except_bind_inv h
  obtain ⟨lres, hl, h⟩ := except_bind_inv h
  obtain ⟨kpiA, hk, h⟩ := except_bind_inv h
  obtain ⟨costRows, hcr, h⟩ := except_bind_inv h
  obtain ⟨loanRows, hlr, h⟩ := except_bind_inv h
  have h9 := Except.ok.inj h
  have hcosts : rep.costs = cres.1 := by rw [← h9]
  have hloans : rep.loans = lres.1 := by rw [← h9]
  rw [hcosts, hloans]
  unfold generate_anomaly_report
  rw [detect_cost_idem hc, except_bind_ok, detect_loan_idem hl, except_bind_ok,
    hk, except_bind_ok, hcr, except_bind_ok, hlr, except_bind_ok]
  exact h

/-- Running the full anomaly stage a second time over the frames mutated by the
first execution reproduces the identical result structure. -/
theorem run_idem {costs_df loans_df monthly_kpis : Df} {r : RunResult}
    (h : run costs_df loans_df monthly_kpis = Except.ok r) :
    run r.costs r.loans monthly_kpis = Except.ok r := by
  unfold run at h
  obtain ⟨rep, hrep, h⟩ := except_bind_inv h
  obtain ⟨cres, hcd, h⟩ := except_bind_inv h
  obtain ⟨lres, hld, h⟩ := except_bind_inv h
  obtain ⟨kpiA, hk, h⟩ := except_bind_inv h
  obtain ⟨costParts, hcp, h⟩ := except_bind_inv h
  obtain ⟨loanParts, hlp, h⟩ := except_bind_inv h
  have h9 := Except.ok.inj h
  obtain ⟨cres0, lres0, hc0, hl0, hrc0, hrl0⟩ := generate_report_inv hrep
  have hcc : cres = cres0 := by
    have hci := detect_cost_idem hc0
    rw [← hrc0] at hci
    exact Except.ok.inj (hcd.symm.trans hci)
  have hll : lres = lres0 := by
    have hli := detect_loan_idem hl0
    rw [← hrl0] at hli
    exact Except.ok.inj (hld.symm.trans hli)
  have hc1 : cres.1 = rep.costs := by rw [hcc, ← hrc0]
  have hl1 : lres.1 = rep.loans := by rw [hll, ← hrl0]
  have hrcosts : r.costs = cres.1 := by rw [← h9]
  have hrloans : r.loans = lres.1 := by rw [← h9]
  rw [hrcosts, hrloans]
  have hgen : generate_anomaly_report cres.1 lres.1 monthly_kpis = Except.ok rep := by
    rw [hc1, hl1]
    exact generate_report_idem hrep
  unfold run
  simp only [hgen, except_bind_ok, hcd, hld, hk, hcp, hlp]
  exact h

theorem decorateCost_type (t : ℚ) (r0 : Row) :
    (decorateCost t r0).get "anomaly_type" = some (Val.str (costLabel t r0)) := by
  unfold decorateCost
  rw [Row.get_set_ne _ (by decide) _, Row.get_set_self]

theorem decorateLoan_type (t : ℚ) (r0 : Row) :
    (decorateLoan t r0).get "anomaly_type" = some (Val.str (loanLabel t r0)) := by
  unfold decorateLoan
  rw [Row.get_set_ne _ (by decide) _, Row.get_set_self]

theorem decorateCost_get_ne (t : ℚ) (r0 : Row) {c : String}
    (h1 : ("anomaly_type" : String) ≠ c) (h2 : ("severity" : String) ≠ c) :
    (decorateCost t r0).get c = r0.get c := by
  unfold decorateCost
  rw [Row.get_set_ne _ h2 _, Row.get_set_ne _ h1 _]

theorem decorateLoan_get_ne (t : ℚ) (r0 : Row) {c : String}
    (h1 : ("anomaly_type" : String) ≠ c) (h2 : ("severity" : String) ≠ c) :
    (decorateLoan t r0).get c = r0.get c := by
  unfold decorateLoan
  rw [Row.get_set_ne _ h2 _, Row.get_set_ne _ h1 _]

/-- Decomposition of any row of the cost anomaly table: it is a flagged row of
the mutated frame decorated with the label and severity columns. -/
theorem cost_output_mem {df : Df} {t : ℚ} {p : Df × Df} {r : Row}
    (h : detect_cost_anomalies df t = Except.ok p) (hr : r ∈ p.2) :
    ∃ r0, r0 ∈ p.1 ∧
      (rowAbsGT r0 "variance_z_score" t || rowAbsGT r0 "actual_z_score" t) = true ∧
      r = decorateCost t r0 := by
  obtain ⟨vpct, aamt, _, _, _, hp2⟩ := detect_cost_inv h
  rw [hp2, List.mem_insertionSort, List.mem_map] at hr
  obtain ⟨r0, hr0, rfl⟩ := hr
  rw [List.mem_filter] at hr0
  exact ⟨r0, hr0.1, hr0.2, rfl⟩

/-- Any flagged row of the mutated cost frame appears, decorated, in the
anomaly table. -/
theorem cost_output_mem_intro {df : Df} {t : ℚ} {p : Df × Df} {r0 : Row}
    (h : detect_cost_anomalies df t = Except.ok p) (hr0 : r0 ∈ p.1)
    (hcond : (rowAbsGT r0 "variance_z_score" t || rowAbsGT r0 "actual_z_score" t) = true) :
    decorateCost t r0 ∈ p.2 := by
  obtain ⟨vpct, aamt, _, _, _, hp2⟩ := detect_cost_inv h
  rw [hp2, List.mem_insertionSort, List.mem_map]
  exact ⟨r0, List.mem_filter.mpr ⟨hr0, hcond⟩, rfl⟩

/-- Decomposition of any row of the loan anomaly table. -/
theorem loan_output_mem {df : Df} {t : ℚ} {p : Df × Df} {r : Row}
    (h : detect_loan_anomalies df t = Except.ok p) (hr : r ∈ p.2) :
    ∃ r0, r0 ∈ p.1 ∧
      (rowAbsGT r0 "pd_z_score" t || rowAbsGT r0 "ecl_z_score" t ||
        rowAbsGT r0 "ead_z_score" t) = true ∧
      r = decorateLoan t r0 := by
  obtain ⟨pdv, eclv, eadv, _, _, _, _, hp2⟩ := detect_loan_inv h
  rw [hp2, List.mem_insertionSort, List.mem_map] at hr
  obtain ⟨r0, hr0, rfl⟩ := hr
  rw [List.mem_filter] at hr0
  exact ⟨r0, hr0.1, hr0.2, rfl⟩

/-- Any flagged row of the mutated loan frame appears, decorated, in the
anomaly table. -/
theorem loan_output_mem_intro {df : Df} {t : ℚ} {p : Df × Df} {r0 : Row}
    (h : detect_loan_anomalies df t = Except.ok p) (hr0 : r0 ∈ p.1)
    (hcond : (rowAbsGT r0 "pd_z_score" t || rowAbsGT r0 "ecl_z_score" t ||
      rowAbsGT r0 "ead_z_score" t) = true) :
    decorateLoan t r0 ∈ p.2 := by
  obtain ⟨pdv, eclv, eadv, _, _, _, _, hp2⟩ := detect_loan_inv h
  rw [hp2, List.mem_insertionSort, List.mem_map]
  exact ⟨r0, List.mem_filter.mpr ⟨hr0, hcond⟩, rfl⟩

/-- The frame of the caller comes back unchanged from the time-series detector
(the source sorts a copy). -/
theorem ts_fst_eq {df : Df} {vc dc : String} {res : Df × Df}
    (h : detect_time_series_anomalies df vc dc = Except.ok res) : res.1 = df := by
  unfold detect_time_series_anomalies at h
  cases h1 : getColStr df dc with
  | none => rw [h1] at h; exact absurd h (by simp)
  | some ds =>
    simp only [h1] at h
    by_cases hw : tsWindow df.length < 2
    · simp only [hw, if_true] at h
      have h3 : (df, ([] : Df)) = res := by injection h
      rw [← h3]
    · simp only [hw, if_false] at h
      cases h2 : getColNum
          (List.insertionSort (fun a b => rowDateKey dc a ≤ rowDateKey dc b) df) vc with
      | none => rw [h2] at h; exact absurd h (by simp)
      | some vals =>
        simp only [h2] at h
        have h3 := Except.ok.inj h
        rw [← h3]

theorem mean_replicate {n : Nat} (x : ℚ) (h : 1 ≤ n) :
    mean (List.replicate n x) = x := by
  unfold mean
  rw [List.sum_replicate, List.length_replicate, nsmul_eq_mul]
  have hn : (n : ℚ) ≠ 0 := Nat.cast_ne_zero.mpr (by omega)
  field_simp

theorem sampleVar_replicate {n : Nat} (x : ℚ) (h : 2 ≤ n) :
    sampleVar (List.replicate n x) = some 0 := by
  unfold sampleVar
  rw [List.length_replicate]
  have h1 : ¬ n ≤ 1 := by omega
  simp only [h1, if_false, Option.some_inj]
  rw [mean_replicate x (by omega), List.map_replicate]
  simp

/-- A constant column of at least two values gets the literal zero score
series. -/
theorem calculate_z_score_replicate {n : Nat} (x : ℚ) (h : 2 ≤ n) :
    calculate_z_score (List.replicate n x) = List.replicate n ZVal.zero := by
  unfold calculate_z_score
  rw [sampleVar_replicate x h]
  simp [List.map_replicate]

/-- A single-element population has a NaN standard deviation in pandas, so the
zero-standard-deviation branch is skipped and the score is NaN, not 0. -/
theorem calculate_z_score_single (x : ℚ) : calculate_z_score [x] = [ZVal.nan] := by
  unfold calculate_z_score sampleVar
  simp

theorem calculate_z_score_replicate_no_flag {n : Nat} (x t : ℚ) (ht : 0 ≤ t) :
    ∀ z ∈ calculate_z_score (List.replicate n x), z.absGT t = false := by
  intro z hz
  rcases Nat.lt_or_ge n 2 with hn | hn
  · match n, hn with
    | 0, _ => simp [calculate_z_score, sampleVar] at hz
    | 1, _ =>
      simp only [List.replicate, calculate_z_score_single, List.mem_singleton] at hz
      rw [hz]
      rfl
  · rw [calculate_z_score_replicate x hn] at hz
    rw [List.eq_of_mem_replicate hz]
    simp [ZVal.absGT, decide_eq_false_iff_not, not_lt, ht]

/- Concrete datasets used by the claim evaluations and witnesses. -/

/-- A flat monthly series of five identical points followed by one far outlier,
the scenario of the time-series flagging property. -/
def flatOutlierSeries : Df :=
  [[("month", Val.str "2024-01"), ("profit", Val.num 5)],
   [("month", Val.str "2024-02"), ("profit", Val.num 5)],
   [("month", Val.str "2024-03"), ("profit", Val.num 5)],
   [("month", Val.str "2024-04"), ("profit", Val.num 5)],
   [("month", Val.str "2024-05"), ("profit", Val.num 5)],
   [("month", Val.str "2024-06"), ("profit", Val.num 1000)]]

/-- A varied monthly series with a final jump, for the witness of the
never-flags theorem. -/
def variedSeries : Df :=
  [[("month", Val.str "2024-01"), ("profit", Val.num 10)],
   [("month", Val.str "2024-02"), ("profit", Val.num 20)],
   [("month", Val.str "2024-03"), ("profit", Val.num 30)],
   [("month", Val.str "2024-04"), ("profit", Val.num 40)],
   [("month", Val.str "2024-05"), ("profit", Val.num 50)],
   [("month", Val.str "2024-06"), ("profit", Val.num 60)],
   [("month", Val.str "2024-07"), ("profit", Val.num 1000)]]

/-- A two-point series, below the minimum history of the rolling window. -/
def shortSeries : Df :=
  [[("month", Val.str "2024-01"), ("profit", Val.num 7)],
   [("month", Val.str "2024-02"), ("profit", Val.num 9)]]

/-- Twelve cost records, eleven tight and one extreme on both watched fields:
large enough that the outlier exceeds the threshold on both fields at once. -/
def cost12 : Df :=
  (List.replicate 11 [("variance_pct", Val.num 0), ("actual_amount", Val.num 0)]) ++
  [[("variance_pct", Val.num 100), ("actual_amount", Val.num 100)]]

/-- Twelve loan records, the last extreme on both pd and ecl. -/
def loan12a : Df :=
  (List.replicate 11 [("pd", Val.num 0), ("ecl", Val.num 0), ("ead", Val.num 100)]) ++
  [[("pd", Val.num 100), ("ecl", Val.num 100), ("ead", Val.num 100)]]

/-- Twelve loan records with constant pd, the last extreme on ecl and ead. -/
def loan12b : Df :=
  (List.replicate 11 [("pd", Val.num 0), ("ecl", Val.num 0), ("ead", Val.num 0)]) ++
  [[("pd", Val.num 0), ("ecl", Val.num 100), ("ead", Val.num 100)]]

/-- The injected-outlier scenario of the spec: five tight variance values with
mean 0 and sample standard deviation 1, plus one record injected at
mean + 10 * stddev = 10; the other watched field is constant. -/
def costInjected : Df :=
  [[("variance_pct", Val.num (-1)), ("actual_amount", Val.num 100)],
   [("variance_pct", Val.num (-1)), ("actual_amount", Val.num 100)],
   [("variance_pct", Val.num 1), ("actual_amount", Val.num 100)],
   [("variance_pct", Val.num 1), ("actual_amount", Val.num 100)],
   [("variance_pct", Val.num 0), ("actual_amount", Val.num 100)],
   [("variance_pct", Val.num 10), ("actual_amount", Val.num 100)]]

/-- A small cost frame used to exhibit the in-place mutation. -/
def costPair : Df :=
  [[("variance_pct", Val.num 1), ("actual_amount", Val.num 2)],
   [("variance_pct", Val.num 3), ("actual_amount", Val.num 4)]]

/-- A well-formed small cost frame for the orchestration scenarios. -/
def costsSmall : Df :=
  [[("cost_id", Val.num 1), ("business_unit", Val.str "Ops"),
    ("variance_pct", Val.num 0), ("actual_amount", Val.num 0),
    ("variance_amount", Val.num 0)],
   [("cost_id", Val.num 2), ("business_unit", Val.str "Tech"),
    ("variance_pct", Val.num 0), ("actual_amount", Val.num 0),
    ("variance_amount", Val.num 0)]]

/-- A well-formed one-row loan frame for the orchestration scenarios. -/
def loansSmall : Df :=
  [[("loan_id", Val.num 1), ("loan_type", Val.str "Auto"),
    ("pd", Val.num (1 / 50)), ("ecl", Val.num 3), ("ead", Val.num 150)]]

/-- A loan frame missing the watched pd column. -/
def loansMissingPd : Df :=
  [[("loan_id", Val.num 1), ("loan_type", Val.str "Auto"),
    ("ecl", Val.num 3), ("ead", Val.num 150)]]

theorem rowAbsGT_decorateCost (t u : ℚ) (r0 : Row) {c : String}
    (h1 : ("anomaly_type" : String) ≠ c) (h2 : ("severity" : String) ≠ c) :
    rowAbsGT (decorateCost t r0) c u = rowAbsGT r0 c u := by
  unfold rowAbsGT
  rw [decorateCost_get_ne t r0 h1 h2]

theorem rowAbsGT_decorateLoan (t u : ℚ) (r0 : Row) {c : String}
    (h1 : ("anomaly_type" : String) ≠ c) (h2 : ("severity" : String) ≠ c) :
    rowAbsGT (decorateLoan t r0) c u = rowAbsGT r0 c u := by
  unfold rowAbsGT
  rw [decorateLoan_get_ne t r0 h1 h2]

/- Expected outputs of the detectors on the concrete datasets, giving each
z-score cell in its exact numerator-and-variance form. -/

/-- The cost12 frame after the call: both columns have mean 25/3 and sample
variance 2500/3. -/
def cost12After : Df :=
  (List.replicate 11 [("variance_pct", Val.num 0), ("actual_amount", Val.num 0),
    ("variance_z_score", Val.z (ZVal.val (-25 / 3) (2500 / 3))),
    ("actual_z_score", Val.z (ZVal.val (-25 / 3) (2500 / 3)))]) ++
  [[("variance_pct", Val.num 100), ("actual_amount", Val.num 100),
    ("variance_z_score", Val.z (ZVal.val (275 / 3) (2500 / 3))),
    ("actual_z_score", Val.z (ZVal.val (275 / 3) (2500 / 3)))]]

/-- The flagged row of cost12 inside the mutated frame, before decoration. -/
def cost12OutlierRow : Row :=
  [("variance_pct", Val.num 100), ("actual_amount", Val.num 100),
    ("variance_z_score", Val.z (ZVal.val (275 / 3) (2500 / 3))),
    ("actual_z_score", Val.z (ZVal.val (275 / 3) (2500 / 3)))]

/-- The single cost12 anomaly row: squared severity (275/3)^2 / (2500/3) =
121/12, an absolute score of about 3.18. -/
def cost12Anomaly : Row :=
  [("variance_pct", Val.num 100), ("actual_amount", Val.num 100),
    ("variance_z_score", Val.z (ZVal.val (275 / 3) (2500 / 3))),
    ("actual_z_score", Val.z (ZVal.val (275 / 3) (2500 / 3))),
    ("anomaly_type", Val.str "High Variance"),
    ("severity", Val.mag (Mag.sq (121 / 12)))]

def loan12aAfter : Df :=
  (List.replicate 11 [("pd", Val.num 0), ("ecl", Val.num 0), ("ead", Val.num 100),
    ("pd_z_score", Val.z (ZVal.val (-25 / 3) (2500 / 3))),
    ("ecl_z_score", Val.z (ZVal.val (-25 / 3) (2500 / 3))),
    ("ead_z_score", Val.z ZVal.zero)]) ++
  [[("pd", Val.num 100), ("ecl", Val.num 100), ("ead", Val.num 100),
    ("pd_z_score", Val.z (ZVal.val (275 / 3) (2500 / 3))),
    ("ecl_z_score", Val.z (ZVal.val (275 / 3) (2500 / 3))),
    ("ead_z_score", Val.z ZVal.zero)]]

def loan12aAnomaly : Row :=
  [("pd", Val.num 100), ("ecl", Val.num 100), ("ead", Val.num 100),
    ("pd_z_score", Val.z (ZVal.val (275 / 3) (2500 / 3))),
    ("ecl_z_score", Val.z (ZVal.val (275 / 3) (2500 / 3))),
    ("ead_z_score", Val.z ZVal.zero),
    ("anomaly_type", Val.str "High PD"),
    ("severity", Val.mag (Mag.sq (121 / 12)))]

def loan12bAfter : Df :=
  (List.replicate 11 [("pd", Val.num 0), ("ecl", Val.num 0), ("ead", Val.num 0),
    ("pd_z_score", Val.z ZVal.zero),
    ("ecl_z_score", Val.z (ZVal.val (-25 / 3) (2500 / 3))),
    ("ead_z_score", Val.z (ZVal.val (-25 / 3) (2500 / 3)))]) ++
  [[("pd", Val.num 0), ("ecl", Val.num 100), ("ead", Val.num 100),
    ("pd_z_score", Val.z ZVal.zero),
    ("ecl_z_score", Val.z (ZVal.val (275 / 3) (2500 / 3))),
    ("ead_z_score", Val.z (ZVal.val (275 / 3) (2500 / 3)))]]

def loan12bAnomaly : Row :=
  [("pd", Val.num 0), ("ecl", Val.num 100), ("ead", Val.num 100),
    ("pd_z_score", Val.z ZVal.zero),
    ("ecl_z_score", Val.z (ZVal.val (275 / 3) (2500 / 3))),
    ("ead_z_score", Val.z (ZVal.val (275 / 3) (2500 / 3))),
    ("anomaly_type", Val.str "High ECL"),
    ("severity", Val.mag (Mag.sq (121 / 12)))]

/-- The injected-outlier frame after the call: the full population of 6 values
including the injected one has mean 5/3 and sample variance 262/15, so the
injected record scores only (25/3) / sqrt (262/15), about 1.99. -/
def costInjectedAfter : Df :=
  [[("variance_pct", Val.num (-1)), ("actual_amount", Val.num 100),
    ("variance_z_score", Val.z (ZVal.val (-8 / 3) (262 / 15))),
    ("actual_z_score", Val.z ZVal.zero)],
   [("variance_pct", Val.num (-1)), ("actual_amount", Val.num 100),
    ("variance_z_score", Val.z (ZVal.val (-8 / 3) (262 / 15))),
    ("actual_z_score", Val.z ZVal.zero)],
   [("variance_pct", Val.num 1), ("actual_amount", Val.num 100),
    ("variance_z_score", Val.z (ZVal.val (-2 / 3) (262 / 15))),
    ("actual_z_score", Val.z ZVal.zero)],
   [("variance_pct", Val.num 1), ("actual_amount", Val.num 100),
    ("variance_z_score", Val.z (ZVal.val (-2 / 3) (262 / 15))),
    ("actual_z_score", Val.z ZVal.zero)],
   [("variance_pct", Val.num 0), ("actual_amount", Val.num 100),
    ("variance_z_score", Val.z (ZVal.val (-5 / 3) (262 / 15))),
    ("actual_z_score", Val.z ZVal.zero)],
   [("variance_pct", Val.num 10), ("actual_amount", Val.num 100),
    ("variance_z_score", Val.z (ZVal.val (25 / 3) (262 / 15))),
    ("actual_z_score", Val.z ZVal.zero)]]

def costPairAfter : Df :=
  [[("variance_pct", Val.num 1), ("actual_amount", Val.num 2),
    ("variance_z_score", Val.z (ZVal.val (-1) 2)),
    ("actual_z_score", Val.z (ZVal.val (-1) 2))],
   [("variance_pct", Val.num 3), ("actual_amount", Val.num 4),
    ("variance_z_score", Val.z (ZVal.val 1 2)),
    ("actual_z_score", Val.z (ZVal.val 1 2))]]

def costsSmallAfter : Df :=
  [[("cost_id", Val.num 1), ("business_unit", Val.str "Ops"),
    ("variance_pct", Val.num 0), ("actual_amount", Val.num 0),
    ("variance_amount", Val.num 0),
    ("variance_z_score", Val.z ZVal.zero), ("actual_z_score", Val.z ZVal.zero)],
   [("cost_id", Val.num 2), ("business_unit", Val.str "Tech"),
    ("variance_pct", Val.num 0), ("actual_amount", Val.num 0),
    ("variance_amount", Val.num 0),
    ("variance_z_score", Val.z ZVal.zero), ("actual_z_score", Val.z ZVal.zero)]]

def loansSmallAfter : Df :=
  [[("loan_id", Val.num 1), ("loan_type", Val.str "Auto"),
    ("pd", Val.num (1 / 50)), ("ecl", Val.num 3), ("ead", Val.num 150),
    ("pd_z_score", Val.z ZVal.nan), ("ecl_z_score", Val.z ZVal.nan),
    ("ead_z_score", Val.z ZVal.nan)]]

/-- Expected full result of run on the small frames: no anomalies anywhere, an
empty summary and no combined table, with the caller frames mutated. -/
def runSmallResult : RunResult :=
  ⟨costsSmallAfter, loansSmallAfter, [], [], [], [], none⟩

/- The claims. -/

/-- C1: evaluation of the time-series detector on the exact scenario of the
claim — five identical points followed by one point far above them, default
threshold 3.  The claim says the outlier point (and only it) is flagged; the
code flags nothing, because the trailing window contains the scored point
itself, which caps every absolute rolling z-score at 2 / sqrt 3 < 3. -/
theorem c1_flat_outlier_series_flags_nothing :
    detect_time_series_anomalies flatOutlierSeries "profit" "month" =
      Except.ok (flatOutlierSeries, []) := by decide!

/-- C2: for every input series, of every length and numeric content, a
successful run of detect_time_series_anomalies returns an empty anomaly table
at the built-in threshold 3: the first W - 1 points have NaN statistics, a
zero-variance window gives NaN (0 / 0), and a valid trailing window of
W = min(3, n-1) in {2, 3} observations including the scored point bounds the
absolute rolling z-score by (W-1) / sqrt W <= 2 / sqrt 3 < 3. -/
theorem c2_time_series_detector_always_empty :
    ∀ (df : Df) (value_col date_col : String) (res : Df × Df),
      detect_time_series_anomalies df value_col date_col = Except.ok res →
      res.2 = [] :=
  fun _ _ _ _ h => ts_anomalies_nil h

theorem c2_time_series_detector_always_empty_witness :
    detect_time_series_anomalies variedSeries "profit" "month" =
      Except.ok (variedSeries, []) ∧
    ((variedSeries, ([] : Df)) : Df × Df).2 = [] :=
  ⟨by decide!,
   c2_time_series_detector_always_empty variedSeries "profit" "month"
     (variedSeries, []) (by decide!)⟩

/-- C3: first-match-wins priority labeling.  For cost records, any flagged row
whose variance_pct score exceeds the threshold is labeled High Variance, even
when the actual_amount score also exceeds it (and even when it is larger); for
loan records pd wins over ecl and ead, and ecl wins over ead. -/
theorem c3_priority_order_first_match_wins :
    ∀ (df : Df) (t : ℚ) (p : Df × Df) (r : Row),
      (detect_cost_anomalies df t = Except.ok p → r ∈ p.2 →
        rowAbsGT r "variance_z_score" t = true →
        r.get "anomaly_type" = some (Val.str "High Variance")) ∧
      (detect_loan_anomalies df t = Except.ok p → r ∈ p.2 →
        rowAbsGT r "pd_z_score" t = true →
        r.get "anomaly_type" = some (Val.str "High PD")) ∧
      (detect_loan_anomalies df t = Except.ok p → r ∈ p.2 →
        rowAbsGT r "pd_z_score" t = false →
        rowAbsGT r "ecl_z_score" t = true →
        r.get "anomaly_type" = some (Val.str "High ECL")) := by
  intro df t p r
  refine ⟨?_, ?_, ?_⟩
  · intro h hr hv
    obtain ⟨r0, _, _, rfl⟩ := cost_output_mem h hr
    rw [rowAbsGT_decorateCost t t r0 (by decide) (by decide)] at hv
    rw [decorateCost_type]
    simp [costLabel, hv]
  · intro h hr hv
    obtain ⟨r0, _, _, rfl⟩ := loan_output_mem h hr
    rw [rowAbsGT_decorateLoan t t r0 (by decide) (by decide)] at hv
    rw [decorateLoan_type]
    simp [loanLabel, hv]
  · intro h hr hpd hecl
    obtain ⟨r0, _, _, rfl⟩ := loan_output_mem h hr
    rw [rowAbsGT_decorateLoan t t r0 (by decide) (by decide)] at hpd
    rw [rowAbsGT_decorateLoan t t r0 (by decide) (by decide)] at hecl
    rw [decorateLoan_type]
    simp [loanLabel, hpd, hecl]

theorem c3_priority_order_first_match_wins_witness :
    cost12Anomaly.get "anomaly_type" = some (Val.str "High Variance") ∧
    loan12aAnomaly.get "anomaly_type" = some (Val.str "High PD") ∧
    loan12bAnomaly.get "anomaly_type" = some (Val.str "High ECL") :=
  ⟨(c3_priority_order_first_match_wins cost12 3 (cost12After, [cost12Anomaly])
      cost12Anomaly).1 (by decide!) (by decide!) (by decide!),
   (c3_priority_order_first_match_wins loan12a 3 (loan12aAfter, [loan12aAnomaly])
      loan12aAnomaly).2.1 (by decide!) (by decide!) (by decide!),
   (c3_priority_order_first_match_wins loan12b 3 (loan12bAfter, [loan12bAnomaly])
      loan12bAnomaly).2.2 (by decide!) (by decide!) (by decide!) (by decide!)⟩

/-- C4 counterexample: for a single-element population the claim says the
Score Calculator returns 0; the code returns NaN, because the pandas sample
standard deviation of one observation is NaN, not 0, so the zero branch is
skipped and the score is 0 / NaN = NaN. -/
theorem c4_single_element_score_is_nan_not_zero :
    calculate_z_score [(5 : ℚ)] = [ZVal.nan] ∧
    ¬ calculate_z_score [(5 : ℚ)] = [ZVal.zero] := by decide!

/-- C4 amended: for a zero-variance column of at least two values every score
is the literal 0; for a single-element population the score is NaN, not 0; in
both cases no element can be flagged at any nonnegative threshold. -/
theorem c4_zero_variance_scores_amended :
    ∀ (x t : ℚ) (n : Nat),
      (2 ≤ n → calculate_z_score (List.replicate n x) = List.replicate n ZVal.zero) ∧
      calculate_z_score [x] = [ZVal.nan] ∧
      (0 ≤ t → ∀ z ∈ calculate_z_score (List.replicate n x), z.absGT t = false) ∧
      (0 ≤ t → ∀ z ∈ calculate_z_score [x], z.absGT t = false) := by
  intro x t n
  refine ⟨fun h => calculate_z_score_replicate x h, calculate_z_score_single x,
    fun ht => calculate_z_score_replicate_no_flag x t ht, fun ht z hz => ?_⟩
  rw [calculate_z_score_single] at hz
  simp only [List.mem_singleton] at hz
  rw [hz]
  rfl

theorem c4_zero_variance_scores_amended_witness :
    calculate_z_score (List.replicate 4 (7 : ℚ)) = List.replicate 4 ZVal.zero ∧
    calculate_z_score [(7 : ℚ)] = [ZVal.nan] :=
  ⟨(c4_zero_variance_scores_amended 7 3 4).1 (by decide),
   (c4_zero_variance_scores_amended 7 3 4).2.1⟩

/-- C5: union flagging.  A row of the anomaly table always has at least one
watched-field score above the threshold (logical OR, not AND), and conversely
every row of the mutated frame with at least one score above the threshold
appears, decorated with its label and severity, in the anomaly table. -/
theorem c5_union_flagging :
    ∀ (df : Df) (t : ℚ) (p : Df × Df),
      (detect_cost_anomalies df t = Except.ok p →
        (∀ r ∈ p.2, rowAbsGT r "variance_z_score" t = true ∨
          rowAbsGT r "actual_z_score" t = true) ∧
        (∀ r0 ∈ p.1, (rowAbsGT r0 "variance_z_score" t = true ∨
          rowAbsGT r0 "actual_z_score" t = true) → decorateCost t r0 ∈ p.2)) ∧
      (detect_loan_anomalies df t = Except.ok p →
        (∀ r ∈ p.2, rowAbsGT r "pd_z_score" t = true ∨
          rowAbsGT r "ecl_z_score" t = true ∨ rowAbsGT r "ead_z_score" t = true) ∧
        (∀ r0 ∈ p.1, (rowAbsGT r0 "pd_z_score" t = true ∨
          rowAbsGT r0 "ecl_z_score" t = true ∨ rowAbsGT r0 "ead_z_score" t = true) →
          decorateLoan t r0 ∈ p.2)) := by
  intro df t p
  constructor
  · intro h
    constructor
    · intro r hr
      obtain ⟨r0, _, hcond, rfl⟩ := cost_output_mem h hr
      rw [rowAbsGT_decorateCost t t r0 (by decide) (by decide),
        rowAbsGT_decorateCost t t r0 (by decide) (by decide)]
      rwa [Bool.or_eq_true] at hcond
    · intro r0 hr0 hcond
      exact cost_output_mem_intro h hr0 (by rwa [Bool.or_eq_true])
  · intro h
    constructor
    · intro r hr
      obtain ⟨r0, _, hcond, rfl⟩ := loan_output_mem h hr
      rw [rowAbsGT_decorateLoan t t r0 (by decide) (by decide),
        rowAbsGT_decorateLoan t t r0 (by decide) (by decide),
        rowAbsGT_decorateLoan t t r0 (by decide) (by decide)]
      simp only [Bool.or_eq_true, or_assoc] at hcond
      exact hcond
    · intro r0 hr0 hcond
      apply loan_output_mem_intro h hr0
      simp only [Bool.or_eq_true, or_assoc]
      exact hcond

theorem c5_union_flagging_witness :
    (rowAbsGT cost12Anomaly "variance_z_score" 3 = true ∨
      rowAbsGT cost12Anomaly "actual_z_score" 3 = true) ∧
    decorateCost 3 cost12OutlierRow ∈ [cost12Anomaly] := by
  have h := (c5_union_flagging cost12 3 (cost12After, [cost12Anomaly])).1 (by decide!)
  exact ⟨h.1 cost12Anomaly (by decide!), h.2 cost12OutlierRow (by decide!) (by decide!)⟩

/-- C6: the adaptive window of the time-series detector is
W = min(3, n - 1); for n <= 2 points the window check W < 2 fires and the
detector returns an empty result, not an error (assuming the period column is
present, as the source sorts by it first). -/
theorem c6_window_rule_short_series_empty :
    ∀ (df : Df) (value_col date_col : String) (ds : List String),
      tsWindow df.length = min 3 ((df.length : Int) - 1) ∧
      (df.length ≤ 2 → getColStr df date_col = some ds →
        detect_time_series_anomalies df value_col date_col = Except.ok (df, [])) := by
  intro df vc dc ds
  refine ⟨rfl, fun hlen hcol => ?_⟩
  unfold detect_time_series_anomalies
  have hw : tsWindow df.length < 2 := by
    unfold tsWindow
    omega
  simp only [hcol, hw, if_true]

theorem c6_window_rule_short_series_empty_witness :
    shortSeries.length ≤ 2 ∧
    detect_time_series_anomalies shortSeries "profit" "month" =
      Except.ok (shortSeries, []) :=
  ⟨by decide,
   (c6_window_rule_short_series_empty shortSeries "profit" "month"
     ["2024-01", "2024-02"]).2 (by decide) (by decide!)⟩

/-- C7 counterexample: the exact scenario of the claim — five tight records
(variance_pct mean 0, sample standard deviation 1) plus one record injected at
mean + 10 * stddev = 10, constant on the other watched field.  The claim says
the injected record appears in the output with severity at least 10; the code
returns an empty anomaly table, because the z-score population includes the
injected record itself, and with 6 records no absolute score can exceed
5 / sqrt 6 < 3. -/
theorem c7_injected_outlier_not_flagged :
    sampleVar [(-1 : ℚ), -1, 1, 1, 0] = some 1 ∧
    mean [(-1 : ℚ), -1, 1, 1, 0] = 0 ∧
    detect_cost_anomalies costInjected 3 = Except.ok (costInjectedAfter, []) := by
  refine ⟨by decide!, by decide!, by decide!⟩

/-- C7 amended: with the scored population including the injected record, a
cost frame of at most 10 records can never produce any anomaly at threshold 3
(the absolute score is capped at (n-1) / sqrt n); in particular the 6-record
injected-outlier scenario yields an empty table and no severity at all. -/
theorem c7_small_population_never_flagged :
    ∀ (df : Df) (p : Df × Df), df.length ≤ 10 →
      detect_cost_anomalies df 3 = Except.ok p → p.2 = [] :=
  fun _ _ h1 h2 => detect_cost_nil_of_small h1 h2

theorem c7_small_population_never_flagged_witness :
    costInjected.length ≤ 10 ∧ ((costInjectedAfter, ([] : Df)) : Df × Df).2 = [] :=
  ⟨by decide,
   c7_small_population_never_flagged costInjected (costInjectedAfter, [])
     (by decide) (by decide!)⟩

/-- C8 counterexample: detect_cost_anomalies does mutate the frame of the
caller — after the call the frame carries the two new z-score columns, so it
is not equal to the frame that was passed in. -/
theorem c8_cost_detector_mutates_caller :
    detect_cost_anomalies costPair 3 = Except.ok (costPairAfter, []) ∧
    costPairAfter ≠ costPair := by
  refine ⟨by decide!, by decide!⟩

/-- C8 amended: the time-series detector leaves the frame of the caller
unchanged (the source sorts a copy), while the cost and loan detectors add or
overwrite exactly their z-score columns in the frame of the caller, leaving
the cells of every other column unchanged. -/
theorem c8_mutation_scope_amended :
    ∀ (df : Df) (vc dc : String) (t : ℚ) (res p q : Df × Df) (c : String),
      (detect_time_series_anomalies df vc dc = Except.ok res → res.1 = df) ∧
      (detect_cost_anomalies df t = Except.ok p →
        c ≠ "variance_z_score" → c ≠ "actual_z_score" →
        getColVals p.1 c = getColVals df c) ∧
      (detect_loan_anomalies df t = Except.ok q →
        c ≠ "pd_z_score" → c ≠ "ecl_z_score" → c ≠ "ead_z_score" →
        getColVals q.1 c = getColVals df c) := by
  intro df vc dc t res p q c
  refine ⟨fun h => ts_fst_eq h, fun h h1 h2 => ?_, fun h h1 h2 h3 => ?_⟩
  · obtain ⟨vpct, aamt, _, _, hp1, _⟩ := detect_cost_inv h
    rw [hp1, getColVals_setCol_ne _ (Ne.symm h2) _, getColVals_setCol_ne _ (Ne.symm h1) _]
  · obtain ⟨pdv, eclv, eadv, _, _, _, hp1, _⟩ := detect_loan_inv h
    rw [hp1, getColVals_setCol_ne _ (Ne.symm h3) _, getColVals_setCol_ne _ (Ne.symm h2) _,
      getColVals_setCol_ne _ (Ne.symm h1) _]

theorem c8_mutation_scope_amended_witness :
    ((variedSeries, ([] : Df)) : Df × Df).1 = variedSeries ∧
    getColVals costPairAfter "variance_pct" = getColVals costPair "variance_pct" :=
  ⟨(c8_mutation_scope_amended variedSeries "profit" "month" 3 (variedSeries, [])
      (costPairAfter, []) ([], []) "variance_pct").1 (by decide!),
   (c8_mutation_scope_amended costPair "profit" "month" 3 (variedSeries, [])
      (costPairAfter, []) ([], []) "variance_pct").2.1 (by decide!) (by decide) (by decide)⟩

/-- C9 counterexample: with a loan frame missing the watched pd column,
generate_anomaly_report does not produce any partial report — the loan
detector failure propagates out of it unchanged. -/
theorem c9_loan_failure_aborts_report :
    generate_anomaly_report costsSmall loansMissingPd [] =
      Except.error "missing column: pd" := by decide!

/-- C9 amended: a loan-detector failure is not caught inside the report: it
propagates through generate_anomaly_report and run, and only the top-level
main boundary turns it into exit status 1, with no anomaly report produced at
all. -/
theorem c9_failure_propagates_to_main :
    ∀ (costs_df loans_df monthly_kpis : Df) (e : String) (p : Df × Df),
      detect_cost_anomalies costs_df Z_SCORE_THRESHOLD = Except.ok p →
      detect_loan_anomalies loans_df Z_SCORE_THRESHOLD = Except.error e →
      generate_anomaly_report costs_df loans_df monthly_kpis = Except.error e ∧
      run costs_df loans_df monthly_kpis = Except.error e ∧
      main_status costs_df loans_df monthly_kpis = 1 := by
  intro c l k e p hc hl
  have hg : generate_anomaly_report c l k = Except.error e := by
    unfold generate_anomaly_report
    simp only [hc, except_bind_ok, hl, except_bind_error]
  have hr : run c l k = Except.error e := by
    unfold run
    simp only [hg, except_bind_error]
  refine ⟨hg, hr, ?_⟩
  unfold main_status
  rw [hr]

theorem c9_failure_propagates_to_main_witness :
    generate_anomaly_report costsSmall loansMissingPd [] =
      Except.error "missing column: pd" ∧
    run costsSmall loansMissingPd [] = Except.error "missing column: pd" ∧
    main_status costsSmall loansMissingPd [] = 1 :=
  c9_failure_propagates_to_main costsSmall loansMissingPd [] "missing column: pd"
    (costsSmallAfter, []) (by decide!) (by decide!)

/-- C10: determinism and idempotence of the full anomaly stage.  The engine is
a pure function of its inputs (no hidden random state), and even though run
mutates the cost and loan frames of the caller in place, running it again over
those already mutated frames recomputes identical z-scores, overwrites the
score columns with the same values, and reproduces the identical summary,
anomaly tables and combined findings. -/
theorem c10_pipeline_idempotent :
    ∀ (costs_df loans_df monthly_kpis : Df) (r : RunResult),
      run costs_df loans_df monthly_kpis = Except.ok r →
      run r.costs r.loans monthly_kpis = Except.ok r :=
  fun _ _ _ _ h => run_idem h

theorem c10_pipeline_idempotent_witness :
    run costsSmall loansSmall [] = Except.ok runSmallResult ∧
    run runSmallResult.costs runSmallResult.loans [] = Except.ok runSmallResult :=
  ⟨by decide!,
   c10_pipeline_idempotent costsSmall loansSmall [] runSmallResult (by decide!)⟩
